import Mathlib

/-!
Verification of the foundation_lib memory subsystem (`src/foundation/memory.c`).

The C source is shallowly embedded: pure helper functions become Lean
functions on `Nat`, the process-wide mutable state (arena head, tracker tag
table, statistics, installed tracker tables, per-thread context stack) becomes
explicit state records threaded through the operations, and byte memory is a
function `Nat → Nat` written through little-endian stores.  Machine integers
are modelled as unbounded naturals / integers; the claims under study never
depend on wrap-around of a 64-bit counter or pointer.
-/

/-- Target platform, selecting the preprocessor branch of the C source
(`FOUNDATION_PLATFORM_ANDROID`, `FOUNDATION_PLATFORM_WINDOWS`, other POSIX). -/
inductive Platform where
  | android
  | windows
  | posix
deriving DecidableEq

/-- `FOUNDATION_MAX_ALIGN` (memory.c lines 85-89): 8 on Android, 16 elsewhere. -/
def FOUNDATION_MAX_ALIGN : Platform → Nat
  | .android => 8
  | _ => 16

/-- Modelled from the spec: `math_align_poweroftwo` lives in a foundation math
header that is not part of `src/`; the spec describes it as
round-up-to-power-of-two.  Fuel-based recursion (`ceilPow2Aux n n` rounds `n`
up to the next power of two) keeps the definition structurally recursive. -/
def ceilPow2Aux : Nat → Nat → Nat
  | 0, n => n
  | fuel + 1, n => if n ≤ 1 then n else 2 * ceilPow2Aux fuel ((n + 1) / 2)

/-- Modelled from the spec: round `n` up to the next power of two. -/
def math_align_poweroftwo (n : Nat) : Nat := ceilPow2Aux n n

theorem ceilPow2Aux_ge : ∀ fuel n : Nat, n ≤ ceilPow2Aux fuel n := by
  intro fuel
  induction fuel with
  | zero => intro n; simp [ceilPow2Aux]
  | succ f ih =>
    intro n
    simp only [ceilPow2Aux]
    split
    · exact Nat.le_refl n
    · have := ih ((n + 1) / 2)
      omega

theorem ceilPow2Aux_le_pow :
    ∀ fuel n k : Nat, n ≤ 2 ^ k → ceilPow2Aux fuel n ≤ 2 ^ k := by
  intro fuel
  induction fuel with
  | zero => intro n k h; simpa [ceilPow2Aux] using h
  | succ f ih =>
    intro n k h
    simp only [ceilPow2Aux]
    split
    · exact h
    · rename_i hn
      cases k with
      | zero => simp at h; omega
      | succ k =>
        have hp : (2 : Nat) ^ (k + 1) = 2 * 2 ^ k := by ring
        have h2 : (n + 1) / 2 ≤ 2 ^ k := by omega
        have h3 := ih ((n + 1) / 2) k h2
        omega

/-- `_memory_get_align` (memory.c lines 138-156), parametrised by the platform
and by `word = FOUNDATION_SIZE_POINTER`. -/
def _memory_get_align (plat : Platform) (word align : Nat) : Nat :=
  match plat with
  | .android => if 0 < align then FOUNDATION_MAX_ALIGN .android else 0
  | .windows =>
    if align < word then word
    else
      let a := math_align_poweroftwo align
      if a < FOUNDATION_MAX_ALIGN .windows then a else FOUNDATION_MAX_ALIGN .windows
  | .posix =>
    if align < word then (if align ≠ 0 then word else 0)
    else
      let a := math_align_poweroftwo align
      if a < FOUNDATION_MAX_ALIGN .posix then a else FOUNDATION_MAX_ALIGN .posix

/-- `_memory_get_align_forced` (memory.c lines 158-162). -/
def _memory_get_align_forced (plat : Platform) (word align : Nat) : Nat :=
  let a := _memory_get_align plat word align
  if word < a then a else word

/-- The formula the spec gives for `effective_align` on non-Android platforms:
`0` if `a = 0`, else `max(WORD, round-up-to-pow2(a))` clamped to `MAX_ALIGN`.
Stated from the spec's words, for comparison against `_memory_get_align`. -/
def effective_align_spec (plat : Platform) (word align : Nat) : Nat :=
  if align = 0 then 0
  else min (max word (math_align_poweroftwo align)) (FOUNDATION_MAX_ALIGN plat)

/-- Claim C3 counterexample: the claim says every platform other than Android
returns 0 for alignment 0, but on Windows `_memory_get_align` returns the
pointer size (8 on 64-bit) for alignment 0, not 0. -/
theorem c3_effective_align_cex :
    Platform.windows ≠ Platform.android ∧
      _memory_get_align Platform.windows 8 0 = 8 ∧
      _memory_get_align Platform.windows 8 0 ≠ 0 := by
  refine ⟨by decide, by decide, by decide⟩

/-- Claim C3 (amended): on every platform except Android, for `a > 0` the
effective alignment is `max(WORD, round-up-to-pow2(a))` clamped to
`MAX_ALIGN`; for `a = 0` the POSIX branch returns 0 but the Windows branch
returns `WORD`.  (Android returns `MAX_ALIGN` for `a > 0` and 0 for `a = 0`
as the claim states; that branch is definitional.) -/
theorem c3_effective_align (plat : Platform) (word align : Nat)
    (hplat : plat ≠ Platform.android) (hword : word = 4 ∨ word = 8) :
    _memory_get_align plat word align =
      if align = 0 then (if plat = Platform.windows then word else 0)
      else effective_align_spec plat word align := by
  have hge : align ≤ math_align_poweroftwo align := ceilPow2Aux_ge align align
  have hup : align < word → math_align_poweroftwo align ≤ word := by
    intro h
    rcases hword with h4 | h8
    · have h : math_align_poweroftwo align ≤ 2 ^ 2 :=
        ceilPow2Aux_le_pow align align 2 (by omega)
      omega
    · have h : math_align_poweroftwo align ≤ 2 ^ 3 :=
        ceilPow2Aux_le_pow align align 3 (by omega)
      omega
  cases plat with
  | android => exact absurd rfl hplat
  | windows =>
    simp only [_memory_get_align, effective_align_spec, FOUNDATION_MAX_ALIGN,
      Nat.min_def, Nat.max_def]
    rcases Nat.lt_or_ge align word with hlt | hge2
    · have hp := hup hlt
      split_ifs <;> omega
    · split_ifs <;> omega
  | posix =>
    have hpw : (Platform.posix = Platform.windows) = False := by simp
    simp only [_memory_get_align, effective_align_spec, FOUNDATION_MAX_ALIGN,
      hpw, if_false, Nat.min_def, Nat.max_def]
    rcases Nat.lt_or_ge align word with hlt | hge2
    · have hp := hup hlt
      split_ifs <;> omega
    · split_ifs <;> omega

/-- Claim C3 witness: the amended statement evaluated at POSIX, word 8,
alignment 5. -/
theorem c3_effective_align_witness :
    _memory_get_align Platform.posix 8 5 =
      if (5 : Nat) = 0 then (if Platform.posix = Platform.windows then 8 else 0)
      else effective_align_spec Platform.posix 8 5 :=
  c3_effective_align Platform.posix 8 5 (by decide) (Or.inr rfl)

/-- Byte-addressed memory, as a total map from addresses to byte values. -/
abbrev Mem := Nat → Nat

/-- `memset(p, 0, n)`: zero the `n` bytes starting at `p`. -/
def memset0 (m : Mem) (p n : Nat) : Mem :=
  fun x => if p ≤ x ∧ x < p + n then 0 else m x

/-- The temporary-memory arena configuration (`_memory_temporary`, memory.c
lines 41-47 and 91-105): `storage` is the base address (0 when the arena is
not live), `size` the byte size; `end = storage + size` and
`maxchunk = size / 8`.  The atomic `head` is threaded separately as plain
state, the sequential embedding of the CAS loop. -/
structure ArenaCfg where
  storage : Nat
  size : Nat
deriving DecidableEq

/-- `_atomic_allocate_linear` (memory.c lines 115-136), sequential embedding:
returns `(return_pointer, new_head)`.  On wrap-around (candidate head past the
arena end) the returned pointer restarts at `storage + 8`. -/
def _atomic_allocate_linear (c : ArenaCfg) (head chunk : Nat) : Nat × Nat :=
  if c.storage + c.size < head + chunk then
    (c.storage + 8, c.storage + 8 + chunk)
  else (head, head + chunk)

/-- `_memory_align_pointer` (memory.c lines 164-179).  The C code uses mask
arithmetic valid for power-of-two alignments; for such alignments it equals
this arithmetic form (round `p` up to the next multiple of `align`). -/
def _memory_align_pointer (p align : Nat) : Nat :=
  if p = 0 ∨ align = 0 then p
  else if p % align = 0 then p else (p - p % align) + align

/-- Result of `memory_allocate`: the payload pointer, whether the arena path
produced it (as opposed to the back-end `_memory_system.allocate`), the new
arena head, and the resulting byte memory. -/
structure AllocResult where
  ptr : Nat
  fromArena : Bool
  newHead : Nat
  mem : Mem

/-- `memory_allocate` (memory.c lines 247-263) restricted to what the arena
path decides: the back end is abstracted as an oracle pointer `backendPtr`
(the code only reaches it when `p` stays null).  The arena path is taken when
the arena is live, the `TEMPORARY` hint is set and
`size + forced_align < maxchunk` (strict, line 252); it bump-allocates
`size + forced_align` bytes, aligns the returned pointer, and zero-fills
`size` bytes when `ZERO_INITIALIZED` is set. -/
def memory_allocate (plat : Platform) (word : Nat) (c : ArenaCfg) (head : Nat)
    (m : Mem) (size align : Nat) (temporary zero : Bool) (backendPtr : Nat) :
    AllocResult :=
  if c.storage ≠ 0 ∧ temporary = true then
    if size + _memory_get_align_forced plat word align < c.size / 8 then
      { ptr := _memory_align_pointer
          (_atomic_allocate_linear c head
            (size + _memory_get_align_forced plat word align)).1
          (_memory_get_align_forced plat word align),
        fromArena := true,
        newHead := (_atomic_allocate_linear c head
          (size + _memory_get_align_forced plat word align)).2,
        mem := if zero = true then
            memset0 m
              (_memory_align_pointer
                (_atomic_allocate_linear c head
                  (size + _memory_get_align_forced plat word align)).1
                (_memory_get_align_forced plat word align))
              size
          else m }
  else { ptr := backendPtr, fromArena := false, newHead := head, mem := m }
  else { ptr := backendPtr, fromArena := false, newHead := head, mem := m }

theorem align_pointer_bounds (p a : Nat) (hp : 0 < p) (ha : 0 < a) :
    p ≤ _memory_align_pointer p a ∧ _memory_align_pointer p a < p + a := by
  unfold _memory_align_pointer
  have h1 : p % a < a := Nat.mod_lt _ ha
  have h2 : p % a ≤ p := Nat.mod_le _ _
  split_ifs <;> omega

theorem atomic_allocate_linear_bounds (c : ArenaCfg) (head chunk : Nat)
    (hinv1 : c.storage + 8 ≤ head) (hinv2 : head ≤ c.storage + c.size)
    (hchunk : 0 < chunk) (hfit : chunk < c.size / 8) :
    c.storage + 8 ≤ (_atomic_allocate_linear c head chunk).1 ∧
    (_atomic_allocate_linear c head chunk).1 + chunk ≤ c.storage + c.size ∧
    c.storage + 8 ≤ (_atomic_allocate_linear c head chunk).2 ∧
    (_atomic_allocate_linear c head chunk).2 ≤ c.storage + c.size := by
  have hsz : 8 * (chunk + 1) ≤ c.size := by omega
  unfold _atomic_allocate_linear
  split_ifs with h <;> dsimp only <;> omega

/-- Claim C1 (amended): with the fit test read strictly
(`size + forced_align(align) < maxchunk`, as the code has it), a `TEMPORARY`
request on a live arena takes the arena path: the payload does not come from
the back end, it lies inside the arena storage range together with its
`size` bytes, the new head stays in range, and when `ZERO_INITIALIZED` is
also set every one of the first `size` payload bytes is zero. -/
theorem c1_arena_path (plat : Platform) (word : Nat) (c : ArenaCfg) (head : Nat)
    (m : Mem) (size align : Nat) (zero : Bool) (backendPtr : Nat)
    (hword : 0 < word)
    (hlive : c.storage ≠ 0)
    (hinv1 : c.storage + 8 ≤ head) (hinv2 : head ≤ c.storage + c.size)
    (hfit : size + _memory_get_align_forced plat word align < c.size / 8) :
    (memory_allocate plat word c head m size align true zero backendPtr).fromArena
        = true ∧
    c.storage <
      (memory_allocate plat word c head m size align true zero backendPtr).ptr ∧
    (memory_allocate plat word c head m size align true zero backendPtr).ptr
        + size ≤ c.storage + c.size ∧
    c.storage + 8 ≤
      (memory_allocate plat word c head m size align true zero backendPtr).newHead ∧
    (memory_allocate plat word c head m size align true zero backendPtr).newHead
        ≤ c.storage + c.size ∧
    (zero = true → ∀ i, i < size →
      (memory_allocate plat word c head m size align true zero backendPtr).mem
        ((memory_allocate plat word c head m size align true zero backendPtr).ptr
          + i) = 0) := by
  have ha0 : 0 < _memory_get_align_forced plat word align := by
    unfold _memory_get_align_forced
    dsimp only
    split <;> omega
  have hchunk : 0 < size + _memory_get_align_forced plat word align := by omega
  have hl := atomic_allocate_linear_bounds c head
    (size + _memory_get_align_forced plat word align) hinv1 hinv2 hchunk hfit
  have hret0 : 0 <
      (_atomic_allocate_linear c head
        (size + _memory_get_align_forced plat word align)).1 := by omega
  have hap := align_pointer_bounds
    (_atomic_allocate_linear c head
      (size + _memory_get_align_forced plat word align)).1
    (_memory_get_align_forced plat word align) hret0 ha0
  unfold memory_allocate
  rw [if_pos ⟨hlive, rfl⟩, if_pos hfit]
  refine ⟨rfl, by dsimp only; omega, by dsimp only; omega,
    by dsimp only; omega, by dsimp only; omega, ?_⟩
  intro hz i hi
  subst hz
  dsimp only
  rw [if_pos rfl]
  unfold memset0
  rw [if_pos (by omega)]

/-- Claim C1 counterexample: the claim's fit test uses `≤ maxchunk`, but the
code (memory.c line 252) uses a strict `<`.  With arena storage 1000, size 80
(`maxchunk = 10`), a live arena and the `TEMPORARY` hint, a request of size 2
with alignment 0 (forced alignment 8, so `size + forced_align = 10 = maxchunk`)
satisfies every premise of the claim, yet the arena path is not taken: the
result comes from the back end (oracle pointer 5000, outside the arena). -/
theorem c1_arena_path_cex :
    (1000 : Nat) ≠ 0 ∧
    2 + _memory_get_align_forced Platform.posix 8 0 = (80 : Nat) / 8 ∧
    (memory_allocate Platform.posix 8 ⟨1000, 80⟩ 1008 (fun _ => 0) 2 0 true false
        5000).fromArena = false ∧
    (memory_allocate Platform.posix 8 ⟨1000, 80⟩ 1008 (fun _ => 0) 2 0 true false
        5000).ptr = 5000 := by
  refine ⟨by decide, by decide, by decide, by decide⟩

/-- Claim C1 witness: the amended statement evaluated at POSIX, word 8, arena
`⟨1000, 800⟩` (maxchunk 100), head 1008, size 16, alignment 0,
`ZERO_INITIALIZED` set; the zeroing conjunct is applied at byte 3. -/
theorem c1_arena_path_witness :
    (memory_allocate Platform.posix 8 ⟨1000, 800⟩ 1008 (fun _ => 7) 16 0 true true
        4000).fromArena = true ∧
    (1000 : Nat) <
      (memory_allocate Platform.posix 8 ⟨1000, 800⟩ 1008 (fun _ => 7) 16 0 true true
        4000).ptr ∧
    (memory_allocate Platform.posix 8 ⟨1000, 800⟩ 1008 (fun _ => 7) 16 0 true true
        4000).ptr + 16 ≤ 1000 + 800 ∧
    (1000 : Nat) + 8 ≤
      (memory_allocate Platform.posix 8 ⟨1000, 800⟩ 1008 (fun _ => 7) 16 0 true true
        4000).newHead ∧
    (memory_allocate Platform.posix 8 ⟨1000, 800⟩ 1008 (fun _ => 7) 16 0 true true
        4000).newHead ≤ 1000 + 800 ∧
    (memory_allocate Platform.posix 8 ⟨1000, 800⟩ 1008 (fun _ => 7) 16 0 true true
        4000).mem
      ((memory_allocate Platform.posix 8 ⟨1000, 800⟩ 1008 (fun _ => 7) 16 0 true true
        4000).ptr + 3) = 0 := by
  have h := c1_arena_path Platform.posix 8 ⟨1000, 800⟩ 1008 (fun _ => 7) 16 0 true
    4000 (by decide) (by decide) (by decide) (by decide) (by decide)
  exact ⟨h.1, h.2.1, h.2.2.1, h.2.2.2.1, h.2.2.2.2.1, h.2.2.2.2.2 rfl 3 (by decide)⟩

/-- A sequence of arena-path bump allocations: runs `_atomic_allocate_linear`
for each chunk size in the list, returning the final head and the list of
returned pointers. -/
def runLinear (c : ArenaCfg) : Nat → List Nat → Nat × List Nat
  | head, [] => (head, [])
  | head, ch :: rest =>
    let r := _atomic_allocate_linear c head ch
    let rr := runLinear c r.2 rest
    (rr.1, r.1 :: rr.2)

theorem runLinear_bounds (c : ArenaCfg) (chunks : List Nat)
    (hch : ∀ ch ∈ chunks, 0 < ch ∧ ch < c.size / 8) :
    ∀ head, c.storage + 8 ≤ head → head ≤ c.storage + c.size →
      (c.storage + 8 ≤ (runLinear c head chunks).1 ∧
        (runLinear c head chunks).1 ≤ c.storage + c.size) ∧
      ∀ p ∈ (runLinear c head chunks).2,
        c.storage + 8 ≤ p ∧ p < c.storage + c.size := by
  induction chunks with
  | nil =>
    intro head h1 h2
    exact ⟨⟨h1, h2⟩, by intro p hp; simp [runLinear] at hp⟩
  | cons ch rest ih =>
    intro head h1 h2
    obtain ⟨hc0, hcfit⟩ := hch ch (by simp)
    have hb := atomic_allocate_linear_bounds c head ch h1 h2 hc0 hcfit
    have ihr := ih (fun x hx => hch x (by simp [hx])) (_atomic_allocate_linear c head ch).2
      hb.2.2.1 hb.2.2.2
    refine ⟨?_, ?_⟩
    · simpa [runLinear] using ihr.1
    · intro p hp
      simp only [runLinear, List.mem_cons] at hp
      rcases hp with hp | hp
      · subst hp
        constructor
        · exact hb.1
        · omega
      · exact ihr.2 p hp

/-- Claim C7: arena wrap-around invariant.  For any sequence of arena-path
chunks (each positive and below `maxchunk = size / 8`), starting from a head
inside `[storage+8, end]`, every returned pointer lies in `[storage+8, end)`
(in particular inside `[storage, end)` and never equal to `storage` itself),
the final head stays in range, and whenever a single step wraps (candidate
head past `end`) the returned pointer is exactly `storage + 8`, one
alignment-unit (`WORD = 8`) past the raw storage base. -/
theorem c7_arena_wrap (c : ArenaCfg) (head : Nat) (chunks : List Nat)
    (p hh ch : Nat)
    (hch : ∀ x ∈ chunks, 0 < x ∧ x < c.size / 8)
    (hinv1 : c.storage + 8 ≤ head) (hinv2 : head ≤ c.storage + c.size)
    (hp : p ∈ (runLinear c head chunks).2)
    (hh1 : c.storage + 8 ≤ hh) (hc0 : 0 < ch)
    (hwrap : c.storage + c.size < hh + ch) :
    c.storage + 8 ≤ p ∧ p < c.storage + c.size ∧ p ≠ c.storage ∧
    c.storage + 8 ≤ (runLinear c head chunks).1 ∧
    (runLinear c head chunks).1 ≤ c.storage + c.size ∧
    (_atomic_allocate_linear c hh ch).1 = c.storage + 8 := by
  have hb := runLinear_bounds c chunks hch head hinv1 hinv2
  have hpb := hb.2 p hp
  refine ⟨hpb.1, hpb.2, by omega, hb.1.1, hb.1.2, ?_⟩
  unfold _atomic_allocate_linear
  rw [if_pos hwrap]

/-- Claim C7 witness: arena `⟨1000, 80⟩` (end 1080, maxchunk 10), twelve
9-byte chunks totalling 108 > 80 bytes; pointer 1008 is among the returned
pointers, and the step from head 1080 with chunk 9 wraps to 1008. -/
theorem c7_arena_wrap_witness :
    (1000 : Nat) + 8 ≤ 1008 ∧ 1008 < 1000 + 80 ∧ (1008 : Nat) ≠ 1000 ∧
    1000 + 8 ≤ (runLinear ⟨1000, 80⟩ 1008 [9, 9, 9, 9, 9, 9, 9, 9, 9, 9, 9, 9]).1 ∧
    (runLinear ⟨1000, 80⟩ 1008 [9, 9, 9, 9, 9, 9, 9, 9, 9, 9, 9, 9]).1 ≤ 1000 + 80 ∧
    (_atomic_allocate_linear ⟨1000, 80⟩ 1080 9).1 = 1000 + 8 :=
  c7_arena_wrap ⟨1000, 80⟩ 1008 [9, 9, 9, 9, 9, 9, 9, 9, 9, 9, 9, 9] 1008 1080 9
    (by decide) (by decide) (by decide) (by decide) (by decide) (by decide)
    (by decide)

/-- Store one byte at address `a`. -/
def store8 (m : Mem) (a v : Nat) : Mem :=
  fun x => if x = a then v % 256 else m x

/-- Store a 32-bit word little-endian at address `a`. -/
def store32 (m : Mem) (a v : Nat) : Mem :=
  store8 (store8 (store8 (store8 m a v) (a + 1) (v / 256)) (a + 2) (v / 65536))
    (a + 3) (v / 16777216)

/-- Load a 32-bit word little-endian from address `a`. -/
def load32 (m : Mem) (a : Nat) : Nat :=
  m a + 256 * m (a + 1) + 65536 * m (a + 2) + 16777216 * m (a + 3)

/-- Store a 64-bit word (a C `size_t`) little-endian at address `a`. -/
def store64 (m : Mem) (a v : Nat) : Mem :=
  store32 (store32 m a v) (a + 4) (v / 4294967296)

/-- Load a 64-bit word little-endian from address `a`. -/
def load64 (m : Mem) (a : Nat) : Nat :=
  load32 m a + 4294967296 * load32 m (a + 4)

theorem store32_out (m : Mem) (a v x : Nat) (h : x < a ∨ a + 4 ≤ x) :
    store32 m a v x = m x := by
  simp only [store32, store8]
  rw [if_neg (by omega), if_neg (by omega), if_neg (by omega), if_neg (by omega)]

theorem load32_store32_ne (m : Mem) (a v b : Nat) (h : b + 4 ≤ a ∨ a + 4 ≤ b) :
    load32 (store32 m a v) b = load32 m b := by
  simp only [load32]
  rw [store32_out m a v b (by omega), store32_out m a v (b + 1) (by omega),
    store32_out m a v (b + 2) (by omega), store32_out m a v (b + 3) (by omega)]

theorem load32_store32 (m : Mem) (a v : Nat) :
    load32 (store32 m a v) a = v % 4294967296 := by
  have e0 : store32 m a v a = v % 256 := by
    simp only [store32, store8]
    rw [if_neg (by omega), if_neg (by omega), if_neg (by omega)]
    simp
  have e1 : store32 m a v (a + 1) = v / 256 % 256 := by
    simp only [store32, store8]
    rw [if_neg (by omega), if_neg (by omega)]
    simp
  have e2 : store32 m a v (a + 2) = v / 65536 % 256 := by
    simp only [store32, store8]
    rw [if_neg (by omega)]
    simp
  have e3 : store32 m a v (a + 3) = v / 16777216 % 256 := by
    simp only [store32, store8]
    simp
  simp only [load32, e0, e1, e2, e3]
  omega

theorem load32_store64_ne (m : Mem) (a v b : Nat) (h : b + 4 ≤ a ∨ a + 8 ≤ b) :
    load32 (store64 m a v) b = load32 m b := by
  simp only [store64]
  rw [load32_store32_ne _ (a + 4) _ b (by omega), load32_store32_ne _ a _ b (by omega)]

theorem load64_store32_ne (m : Mem) (a v b : Nat) (h : b + 8 ≤ a ∨ a + 4 ≤ b) :
    load64 (store32 m a v) b = load64 m b := by
  simp only [load64]
  rw [load32_store32_ne _ a _ b (by omega), load32_store32_ne _ a _ (b + 4) (by omega)]

theorem load64_store64 (m : Mem) (a v : Nat) :
    load64 (store64 m a v) a = v % 18446744073709551616 := by
  simp only [load64, store64]
  rw [load32_store32_ne _ (a + 4) _ a (by omega), load32_store32, load32_store32]
  omega

/-- `MEMORY_GUARD_VALUE` (memory.c line 63): `0xDEADBEEF`. -/
def MEMORY_GUARD_VALUE : Nat := 3735928559

/-- `_memory_guard_initialize` in the C source (memory.c lines 215-226), here `_memory_guard_init` with
`FOUNDATION_MAX_ALIGN = 16`: write `size` at `block`, fill the 16 bytes at
`block + 16` (header) and the 16 bytes at `block + size + 32` (footer) with
canary words, interleaved as in the C loop (`FOUNDATION_MAX_ALIGN / 4 = 4`
iterations, each writing one header word then one footer word), and return
`block + 32` as the payload. -/
def _memory_guard_init (m : Mem) (block size : Nat) : Mem × Nat :=
  (store32 (store32 (store32 (store32 (store32 (store32 (store32 (store32
      (store64 m block size)
      (block + 16) MEMORY_GUARD_VALUE)
      (block + size + 32) MEMORY_GUARD_VALUE)
      (block + 20) MEMORY_GUARD_VALUE)
      (block + size + 36) MEMORY_GUARD_VALUE)
      (block + 24) MEMORY_GUARD_VALUE)
      (block + size + 40) MEMORY_GUARD_VALUE)
      (block + 28) MEMORY_GUARD_VALUE)
      (block + size + 44) MEMORY_GUARD_VALUE,
   block + 32)

/-- `_memory_guard_verify` (memory.c lines 228-243) with
`FOUNDATION_MAX_ALIGN = 16`: read `size` at `payload - 32`, check the four
header words at `payload - 16` and the four footer words at `payload + size`
against the canary (the boolean is true exactly when no assertion fires), and
return `payload - 32`. -/
def _memory_guard_verify (m : Mem) (payload : Nat) : Bool × Nat :=
  (decide (load32 m (payload - 16) = MEMORY_GUARD_VALUE) &&
   decide (load32 m (payload + load64 m (payload - 32)) = MEMORY_GUARD_VALUE) &&
   decide (load32 m (payload - 12) = MEMORY_GUARD_VALUE) &&
   decide (load32 m (payload + load64 m (payload - 32) + 4) = MEMORY_GUARD_VALUE) &&
   decide (load32 m (payload - 8) = MEMORY_GUARD_VALUE) &&
   decide (load32 m (payload + load64 m (payload - 32) + 8) = MEMORY_GUARD_VALUE) &&
   decide (load32 m (payload - 4) = MEMORY_GUARD_VALUE) &&
   decide (load32 m (payload + load64 m (payload - 32) + 12) = MEMORY_GUARD_VALUE),
   payload - 32)

/-- Claim C6: guard-codec round trip.  `_memory_guard_init block size`
writes `size` at `block`, fills the 16 canary bytes at `block + 16` and at
`block + size + 32` with `0xDEADBEEF` words, and returns `block + 32` as
payload; `_memory_guard_verify` on that payload, with the stored size word and
both canary bands unmodified, raises no assertion (boolean `true`) and
returns the original `block`. -/
theorem c6_guard_roundtrip (m : Mem) (block size : Nat)
    (hsz : size < 18446744073709551616) :
    (_memory_guard_init m block size).2 = block + 32 ∧
    load64 (_memory_guard_init m block size).1 block = size ∧
    load32 (_memory_guard_init m block size).1 (block + 16)
        = MEMORY_GUARD_VALUE ∧
    load32 (_memory_guard_init m block size).1 (block + 20)
        = MEMORY_GUARD_VALUE ∧
    load32 (_memory_guard_init m block size).1 (block + 24)
        = MEMORY_GUARD_VALUE ∧
    load32 (_memory_guard_init m block size).1 (block + 28)
        = MEMORY_GUARD_VALUE ∧
    load32 (_memory_guard_init m block size).1 (block + size + 32)
        = MEMORY_GUARD_VALUE ∧
    load32 (_memory_guard_init m block size).1 (block + size + 36)
        = MEMORY_GUARD_VALUE ∧
    load32 (_memory_guard_init m block size).1 (block + size + 40)
        = MEMORY_GUARD_VALUE ∧
    load32 (_memory_guard_init m block size).1 (block + size + 44)
        = MEMORY_GUARD_VALUE ∧
    _memory_guard_verify (_memory_guard_init m block size).1
        ((_memory_guard_init m block size).2) = (true, block) := by
  have hsw : load64 (_memory_guard_init m block size).1 block = size := by
    simp (disch := omega) only [_memory_guard_init, load64_store32_ne,
      load64_store64]
    omega
  have hh0 : load32 (_memory_guard_init m block size).1 (block + 16)
      = MEMORY_GUARD_VALUE := by
    simp (disch := omega) only [_memory_guard_init, load32_store32_ne,
      load32_store32]
    norm_num [MEMORY_GUARD_VALUE]
  have hh1 : load32 (_memory_guard_init m block size).1 (block + 20)
      = MEMORY_GUARD_VALUE := by
    simp (disch := omega) only [_memory_guard_init, load32_store32_ne,
      load32_store32]
    norm_num [MEMORY_GUARD_VALUE]
  have hh2 : load32 (_memory_guard_init m block size).1 (block + 24)
      = MEMORY_GUARD_VALUE := by
    simp (disch := omega) only [_memory_guard_init, load32_store32_ne,
      load32_store32]
    norm_num [MEMORY_GUARD_VALUE]
  have hh3 : load32 (_memory_guard_init m block size).1 (block + 28)
      = MEMORY_GUARD_VALUE := by
    simp (disch := omega) only [_memory_guard_init, load32_store32_ne,
      load32_store32]
    norm_num [MEMORY_GUARD_VALUE]
  have hf0 : load32 (_memory_guard_init m block size).1 (block + size + 32)
      = MEMORY_GUARD_VALUE := by
    simp (disch := omega) only [_memory_guard_init, load32_store32_ne,
      load32_store32]
    norm_num [MEMORY_GUARD_VALUE]
  have hf1 : load32 (_memory_guard_init m block size).1 (block + size + 36)
      = MEMORY_GUARD_VALUE := by
    simp (disch := omega) only [_memory_guard_init, load32_store32_ne,
      load32_store32]
    norm_num [MEMORY_GUARD_VALUE]
  have hf2 : load32 (_memory_guard_init m block size).1 (block + size + 40)
      = MEMORY_GUARD_VALUE := by
    simp (disch := omega) only [_memory_guard_init, load32_store32_ne,
      load32_store32]
    norm_num [MEMORY_GUARD_VALUE]
  have hf3 : load32 (_memory_guard_init m block size).1 (block + size + 44)
      = MEMORY_GUARD_VALUE := by
    simp (disch := omega) only [_memory_guard_init, load32_store32_ne,
      load32_store32]
    norm_num [MEMORY_GUARD_VALUE]
  have hpay : (_memory_guard_init m block size).2 = block + 32 := rfl
  refine ⟨hpay, hsw, hh0, hh1, hh2, hh3, hf0, hf1, hf2, hf3, ?_⟩
  rw [hpay]
  unfold _memory_guard_verify
  have e32 : block + 32 - 32 = block := by omega
  have e16 : block + 32 - 16 = block + 16 := by omega
  have e12 : block + 32 - 12 = block + 20 := by omega
  have e8 : block + 32 - 8 = block + 24 := by omega
  have e4 : block + 32 - 4 = block + 28 := by omega
  rw [e32, e16, e12, e8, e4, hsw]
  have f0 : block + 32 + size = block + size + 32 := by omega
  have f1 : block + 32 + size + 4 = block + size + 36 := by omega
  have f2 : block + 32 + size + 8 = block + size + 40 := by omega
  have f3 : block + 32 + size + 12 = block + size + 44 := by omega
  rw [f0]
  rw [hh0, hh1, hh2, hh3, hf0]
  rw [show block + size + 32 + 4 = block + size + 36 by omega,
    show block + size + 32 + 8 = block + size + 40 by omega,
    show block + size + 32 + 12 = block + size + 44 by omega]
  rw [hf1, hf2, hf3]
  simp

/-- Claim C6 witness: the round trip evaluated at the all-zero memory,
block 100, size 3. -/
theorem c6_guard_roundtrip_witness :
    (_memory_guard_init (fun _ => 0) 100 3).2 = 100 + 32 ∧
    load64 (_memory_guard_init (fun _ => 0) 100 3).1 100 = 3 ∧
    load32 (_memory_guard_init (fun _ => 0) 100 3).1 (100 + 16)
        = MEMORY_GUARD_VALUE ∧
    load32 (_memory_guard_init (fun _ => 0) 100 3).1 (100 + 20)
        = MEMORY_GUARD_VALUE ∧
    load32 (_memory_guard_init (fun _ => 0) 100 3).1 (100 + 24)
        = MEMORY_GUARD_VALUE ∧
    load32 (_memory_guard_init (fun _ => 0) 100 3).1 (100 + 28)
        = MEMORY_GUARD_VALUE ∧
    load32 (_memory_guard_init (fun _ => 0) 100 3).1 (100 + 3 + 32)
        = MEMORY_GUARD_VALUE ∧
    load32 (_memory_guard_init (fun _ => 0) 100 3).1 (100 + 3 + 36)
        = MEMORY_GUARD_VALUE ∧
    load32 (_memory_guard_init (fun _ => 0) 100 3).1 (100 + 3 + 40)
        = MEMORY_GUARD_VALUE ∧
    load32 (_memory_guard_init (fun _ => 0) 100 3).1 (100 + 3 + 44)
        = MEMORY_GUARD_VALUE ∧
    _memory_guard_verify (_memory_guard_init (fun _ => 0) 100 3).1
        ((_memory_guard_init (fun _ => 0) 100 3).2) = (true, 100) :=
  c6_guard_roundtrip (fun _ => 0) 100 3 (by norm_num)

/-- `memory_tag_t` (memory.c lines 799-805) restricted to the fields the
claims observe: the (atomic) tracked address and the recorded size.  The
stack-trace words are irrelevant to the claims and omitted. -/
structure MemoryTag where
  address : Nat
  size : Nat
deriving DecidableEq

/-- The four 64-bit statistics counters (`_memory_stats`, memory.c lines
49-54 and 60), modelled as unbounded integers: the counters only wrap after
2^63 operations, unreachable for the claims at hand. -/
structure MemoryStatistics where
  allocations_total : Int
  allocations_current : Int
  allocated_total : Int
  allocated_current : Int
deriving DecidableEq

/-- Effect on the statistics of the increments in `_memory_tracker_track`
(memory.c lines 893-898) and `_memory_tracker_init` (lines 817-822). -/
def statsBump (st : MemoryStatistics) (size : Nat) : MemoryStatistics :=
  { allocations_total := st.allocations_total + 1,
    allocations_current := st.allocations_current + 1,
    allocated_total := st.allocated_total + size,
    allocated_current := st.allocated_current + size }

/-- Effect on the statistics of the decrements in `_memory_tracker_untrack`
(memory.c lines 928-931) and `_memory_tracker_cleanup` (lines 836-838): only
the two `current` counters move. -/
def statsDrop (st : MemoryStatistics) (size : Nat) : MemoryStatistics :=
  { st with allocations_current := st.allocations_current - 1,
            allocated_current := st.allocated_current - size }

/-- The local tracker's process-wide state: `_memory_tags` (with
`tagsAllocated` standing for the pointer being non-null), `_memory_tag_next`,
`_memory_tracker_initd`, and the statistics. -/
structure TrackerState where
  tags : List MemoryTag
  next : Nat
  initialized : Bool
  tagsAllocated : Bool
  stats : MemoryStatistics
deriving DecidableEq

/-- `sizeof(memory_tag_t)` on a 64-bit platform: 8 (atomic pointer) + 8
(size) + 14·8 (trace) = 128 bytes. -/
def MEMORY_TAG_SIZE : Nat := 128

/-- The slot-claim loop of `_memory_tracker_track` (memory.c lines 872-888),
sequential embedding: each iteration fetch-adds the cursor, normalises it
modulo `memory_tracker_max` when it ran past the end (the inner CAS always
succeeds in a sequential run), and tries to claim the slot if its address is
0 (the address CAS).  Runs at most `fuel` iterations (the C loop uses
`2 * memory_tracker_max`).  Returns the new tag array, the new cursor and
the claimed slot index, if any. -/
def trackLoop (cfgMax addr size : Nat) :
    List MemoryTag → Nat → Nat → List MemoryTag × Nat × Option Nat
  | tags, next, 0 => (tags, next, none)
  | tags, next, fuel + 1 =>
    if (tags.getD (if cfgMax ≤ next then next % cfgMax else next) ⟨0, 0⟩).address
        = 0 then
      (tags.set (if cfgMax ≤ next then next % cfgMax else next) ⟨addr, size⟩,
       (if cfgMax ≤ next then next % cfgMax else next) + 1,
       some (if cfgMax ≤ next then next % cfgMax else next))
    else
      trackLoop cfgMax addr size tags
        (if cfgMax ≤ next then next % cfgMax + 1 else next + 1) fuel

/-- `_memory_tracker_track` (memory.c lines 867-900).  Note that the
statistics increments (lines 893-898) sit after the slot-claim loop, inside
the `addr && initialized` guard: they run whether or not a slot was
claimed. -/
def _memory_tracker_track (cfgMax : Nat) (s : TrackerState) (addr size : Nat) :
    TrackerState :=
  if addr ≠ 0 ∧ s.initialized = true then
    let r := trackLoop cfgMax addr size s.tags s.next (2 * cfgMax)
    { s with tags := r.1, next := r.2.1, stats := statsBump s.stats size }
  else s

/-- The slot index claimed by `_memory_tracker_track`'s loop, if any. -/
def trackClaim (cfgMax : Nat) (s : TrackerState) (addr size : Nat) : Option Nat :=
  (trackLoop cfgMax addr size s.tags s.next (2 * cfgMax)).2.2

/-- The backwards slot search of `_memory_tracker_untrack` (memory.c lines
910-923): starting at `itag`, walk down (wrapping from 0 to
`memory_tracker_max - 1`), stopping after checking `iend`; return the index
and recorded size of the first slot whose address matches. -/
def untrackSearch (cfgMax : Nat) (tags : List MemoryTag) (iend addr : Nat) :
    Nat → Nat → Option (Nat × Nat)
  | _, 0 => none
  | itag, fuel + 1 =>
    if (tags.getD itag ⟨0, 0⟩).address = addr then
      some (itag, (tags.getD itag ⟨0, 0⟩).size)
    else if itag = iend then none
    else untrackSearch cfgMax tags iend addr
      (if itag = 0 then cfgMax - 1 else itag - 1) fuel

/-- `_memory_tracker_untrack` (memory.c lines 902-936): search backwards from
the cursor; on a match with a non-zero recorded size, clear the slot's
address and decrement the two `current` counters.  A match with recorded
size 0 fails the `tag && size` test and mutates nothing. -/
def untrackFound (cfgMax : Nat) (s : TrackerState) (addr : Nat) :
    Option (Nat × Nat) :=
  if addr ≠ 0 ∧ s.initialized = true then
    untrackSearch cfgMax s.tags (s.next % cfgMax) addr
      (if s.next % cfgMax = 0 then cfgMax - 1 else s.next % cfgMax - 1)
      (cfgMax + 1)
  else none

def _memory_tracker_untrack (cfgMax : Nat) (s : TrackerState) (addr : Nat) :
    TrackerState :=
  match untrackFound cfgMax s addr with
  | some (i, sz) =>
    if sz ≠ 0 then
      { s with tags := s.tags.set i ⟨0, sz⟩, stats := statsDrop s.stats sz }
    else s
  | none => s

/-- `_memory_tracker_initialize` in the C source (memory.c lines 811-827), here `_memory_tracker_init`: allocate the tag
table (zero-initialised) and count it in all four statistics counters. -/
def _memory_tracker_init (cfgMax : Nat) (s : TrackerState) : TrackerState :=
  if s.initialized = false then
    { s with tags := List.replicate cfgMax ⟨0, 0⟩,
             tagsAllocated := true,
             stats := statsBump s.stats (MEMORY_TAG_SIZE * cfgMax),
             initialized := true }
  else s

/-- `_memory_tracker_cleanup` (memory.c lines 829-843): clear the initialized
flag; if the tag table is allocated, free it and decrement the two `current`
counters by the table's footprint. -/
def _memory_tracker_cleanup (cfgMax : Nat) (s : TrackerState) : TrackerState :=
  let s1 := { s with initialized := false }
  if s1.tagsAllocated = true then
    { s1 with tags := [], tagsAllocated := false,
              stats := statsDrop s1.stats (MEMORY_TAG_SIZE * cfgMax) }
  else s1

/-- `_memory_tracker_finalize` (memory.c lines 845-865): report every slot
with a non-null address as a leak (returned as the list of leaked addresses),
then run cleanup. -/
def _memory_tracker_finalize (cfgMax : Nat) (s : TrackerState) :
    TrackerState × List Nat :=
  let leaks :=
    if s.tagsAllocated = true then
      (List.range cfgMax).filterMap fun i =>
        if (s.tags.getD i ⟨0, 0⟩).address ≠ 0 then
          some (s.tags.getD i ⟨0, 0⟩).address
        else none
    else []
  (_memory_tracker_cleanup cfgMax { s with initialized := false }, leaks)

theorem trackLoop_full (cfgMax addr size : Nat) (hpos : 0 < cfgMax) :
    ∀ (fuel : Nat) (tags : List MemoryTag) (next : Nat),
      tags.length = cfgMax → (∀ t ∈ tags, t.address ≠ 0) →
      (trackLoop cfgMax addr size tags next fuel).1 = tags ∧
      (trackLoop cfgMax addr size tags next fuel).2.2 = none := by
  intro fuel
  induction fuel with
  | zero => intro tags next hlen hfull; simp [trackLoop]
  | succ f ih =>
    intro tags next hlen hfull
    have htag : (if cfgMax ≤ next then next % cfgMax else next) < tags.length := by
      rw [hlen]
      split
      · exact Nat.mod_lt _ hpos
      · omega
    have hne :
        ¬(tags.getD (if cfgMax ≤ next then next % cfgMax else next) ⟨0, 0⟩).address
          = 0 := by
      rw [List.getD_eq_getElem?_getD, List.getElem?_eq_getElem htag]
      exact hfull _ (List.getElem_mem htag)
    simp only [trackLoop]
    rw [if_neg hne]
    exact ih tags _ hlen hfull

theorem trackLoop_claim (cfgMax addr size : Nat) (hpos : 0 < cfgMax) :
    ∀ (fuel : Nat) (tags tags' : List MemoryTag) (next next' t : Nat),
      tags.length = cfgMax →
      trackLoop cfgMax addr size tags next fuel = (tags', next', some t) →
      t < cfgMax ∧ next' = t + 1 ∧ tags' = tags.set t ⟨addr, size⟩ := by
  intro fuel
  induction fuel with
  | zero =>
    intro tags tags' next next' t hlen heq
    simp [trackLoop] at heq
  | succ f ih =>
    intro tags tags' next next' t hlen heq
    simp only [trackLoop] at heq
    by_cases h :
        (tags.getD (if cfgMax ≤ next then next % cfgMax else next) ⟨0, 0⟩).address
          = 0
    · rw [if_pos h] at heq
      rw [Prod.mk.injEq, Prod.mk.injEq] at heq
      obtain ⟨h1, h2, h3⟩ := heq
      injection h3 with h3
      subst h3
      refine ⟨?_, h2.symm, h1.symm⟩
      split
      · exact Nat.mod_lt _ hpos
      · omega
    · rw [if_neg h] at heq
      exact ih tags tags' _ next' t hlen heq

/-- Claim C2 counterexample: with capacity 2, both slots occupied (addresses
7 and 9), cursor 0, tracker initialized, and statistics all zero, tracking
address 5 (size 3) exhausts the slot-claim loop (`trackClaim` is `none`, the
tag array is unchanged) — yet all four statistics counters are updated to
`⟨1, 1, 3, 3⟩`, contradicting the claim that none of them is updated and that
statistics updates happen only on the successful slot-claim branch. -/
theorem c2_track_exhaustion_cex :
    trackClaim 2 ⟨[⟨7, 1⟩, ⟨9, 2⟩], 0, true, true, ⟨0, 0, 0, 0⟩⟩ 5 3 = none ∧
    (_memory_tracker_track 2 ⟨[⟨7, 1⟩, ⟨9, 2⟩], 0, true, true, ⟨0, 0, 0, 0⟩⟩
        5 3).tags = [⟨7, 1⟩, ⟨9, 2⟩] ∧
    (_memory_tracker_track 2 ⟨[⟨7, 1⟩, ⟨9, 2⟩], 0, true, true, ⟨0, 0, 0, 0⟩⟩
        5 3).stats = ⟨1, 1, 3, 3⟩ ∧
    (⟨1, 1, 3, 3⟩ : MemoryStatistics) ≠ ⟨0, 0, 0, 0⟩ := by
  refine ⟨by decide, by decide, by decide, by decide⟩

/-- Claim C2 (amended): when the local tracker's slot-claim loop is exhausted
(every slot's address is non-null, so no CAS can succeed), the track is
silently dropped — no slot is claimed and the tag array is unchanged — but
the four statistics counters ARE still updated: in the code the statistics
increments sit after the loop, inside the `addr && initialized` guard, not
inside the successful slot-claim branch. -/
theorem c2_track_exhaustion (cfgMax : Nat) (s : TrackerState) (addr size : Nat)
    (haddr : addr ≠ 0) (hinit : s.initialized = true)
    (hlen : s.tags.length = cfgMax) (hpos : 0 < cfgMax)
    (hfull : ∀ t ∈ s.tags, t.address ≠ 0) :
    trackClaim cfgMax s addr size = none ∧
    (_memory_tracker_track cfgMax s addr size).tags = s.tags ∧
    (_memory_tracker_track cfgMax s addr size).stats.allocations_total
        = s.stats.allocations_total + 1 ∧
    (_memory_tracker_track cfgMax s addr size).stats.allocations_current
        = s.stats.allocations_current + 1 ∧
    (_memory_tracker_track cfgMax s addr size).stats.allocated_total
        = s.stats.allocated_total + size ∧
    (_memory_tracker_track cfgMax s addr size).stats.allocated_current
        = s.stats.allocated_current + size := by
  have hl := trackLoop_full cfgMax addr size hpos (2 * cfgMax) s.tags s.next hlen hfull
  unfold _memory_tracker_track trackClaim
  rw [if_pos ⟨haddr, hinit⟩]
  exact ⟨hl.2, hl.1, rfl, rfl, rfl, rfl⟩

/-- Claim C2 witness: the amended statement evaluated at the counterexample
state (capacity 2, both slots occupied, tracking address 5 of size 3). -/
theorem c2_track_exhaustion_witness :
    trackClaim 2 ⟨[⟨7, 1⟩, ⟨9, 2⟩], 0, true, true, ⟨4, 3, 2, 1⟩⟩ 5 3 = none ∧
    (_memory_tracker_track 2 ⟨[⟨7, 1⟩, ⟨9, 2⟩], 0, true, true, ⟨4, 3, 2, 1⟩⟩
        5 3).tags = [⟨7, 1⟩, ⟨9, 2⟩] ∧
    (_memory_tracker_track 2 ⟨[⟨7, 1⟩, ⟨9, 2⟩], 0, true, true, ⟨4, 3, 2, 1⟩⟩
        5 3).stats.allocations_total = 4 + 1 ∧
    (_memory_tracker_track 2 ⟨[⟨7, 1⟩, ⟨9, 2⟩], 0, true, true, ⟨4, 3, 2, 1⟩⟩
        5 3).stats.allocations_current = 3 + 1 ∧
    (_memory_tracker_track 2 ⟨[⟨7, 1⟩, ⟨9, 2⟩], 0, true, true, ⟨4, 3, 2, 1⟩⟩
        5 3).stats.allocated_total = 2 + 3 ∧
    (_memory_tracker_track 2 ⟨[⟨7, 1⟩, ⟨9, 2⟩], 0, true, true, ⟨4, 3, 2, 1⟩⟩
        5 3).stats.allocated_current = 1 + 3 :=
  c2_track_exhaustion 2 ⟨[⟨7, 1⟩, ⟨9, 2⟩], 0, true, true, ⟨4, 3, 2, 1⟩⟩ 5 3
    (by decide) (by decide) (by decide) (by decide) (by decide)

/-- The statistics-touching operations of the memory subsystem after
initialization: a public `memory_allocate` drives `track`, a public
`memory_deallocate`/`memory_reallocate` drives `untrack`, and
`memory_set_tracker`/`_memory_finalize` drive the tracker's `initialize`,
`abort` (= cleanup) and `finalize` hooks. -/
inductive MemOp where
  | track (addr size : Nat)
  | untrack (addr : Nat)
  | tinit
  | tcleanup
  | tfinalize
deriving DecidableEq

/-- Apply one operation to the tracker/statistics state. -/
def applyOp (cfgMax : Nat) (s : TrackerState) : MemOp → TrackerState
  | .track a n => _memory_tracker_track cfgMax s a n
  | .untrack a => _memory_tracker_untrack cfgMax s a
  | .tinit => _memory_tracker_init cfgMax s
  | .tcleanup => _memory_tracker_cleanup cfgMax s
  | .tfinalize => (_memory_tracker_finalize cfgMax s).1

/-- Run a sequence of operations. -/
def runOps (cfgMax : Nat) : TrackerState → List MemOp → TrackerState
  | s, [] => s
  | s, op :: rest => runOps cfgMax (applyOp cfgMax s op) rest

theorem applyOp_totals_mono (cfgMax : Nat) (s : TrackerState) (op : MemOp) :
    s.stats.allocations_total ≤ (applyOp cfgMax s op).stats.allocations_total ∧
    s.stats.allocated_total ≤ (applyOp cfgMax s op).stats.allocated_total := by
  cases op with
  | track a n =>
    simp only [applyOp, _memory_tracker_track]
    split
    · simp only [statsBump]
      constructor <;> simp <;> omega
    · exact ⟨le_refl _, le_refl _⟩
  | untrack a =>
    simp only [applyOp, _memory_tracker_untrack]
    split
    · split
      · simp only [statsDrop]
        exact ⟨le_refl _, le_refl _⟩
      · exact ⟨le_refl _, le_refl _⟩
    · exact ⟨le_refl _, le_refl _⟩
  | tinit =>
    simp only [applyOp, _memory_tracker_init]
    split
    · simp only [statsBump]
      constructor <;> simp [MEMORY_TAG_SIZE] <;> omega
    · exact ⟨le_refl _, le_refl _⟩
  | tcleanup =>
    simp only [applyOp, _memory_tracker_cleanup]
    split
    · simp only [statsDrop]
      exact ⟨le_refl _, le_refl _⟩
    · exact ⟨le_refl _, le_refl _⟩
  | tfinalize =>
    simp only [applyOp, _memory_tracker_finalize, _memory_tracker_cleanup]
    split
    · simp only [statsDrop]
      exact ⟨le_refl _, le_refl _⟩
    · exact ⟨le_refl _, le_refl _⟩

/-- Claim C8: over any sequence of statistics-touching operations (tracking,
untracking, tracker initialize, tracker cleanup/abort, tracker finalize),
`allocations_total` and `allocated_total` are monotonically non-decreasing:
no operation ever decrements either total counter (only the two `current`
counters are ever decremented). -/
theorem c8_totals_monotone (cfgMax : Nat) (s : TrackerState) (ops : List MemOp) :
    s.stats.allocations_total ≤ (runOps cfgMax s ops).stats.allocations_total ∧
    s.stats.allocated_total ≤ (runOps cfgMax s ops).stats.allocated_total := by
  induction ops generalizing s with
  | nil => exact ⟨le_refl _, le_refl _⟩
  | cons op rest ih =>
    have h1 := applyOp_totals_mono cfgMax s op
    have h2 := ih (applyOp cfgMax s op)
    simp only [runOps]
    exact ⟨le_trans h1.1 h2.1, le_trans h1.2 h2.2⟩

/-- Claim C9: a tracked allocation recorded with size 0.  If `track(addr, 0)`
claims a slot, a subsequent `untrack(addr)` finds that slot at the very first
probe (the search starts at `next - 1`, the slot just claimed), but because
the success branch requires a non-zero recorded size (`if (tag && size)`),
untrack mutates nothing: the tag's address is not cleared and the `current`
statistics counters are not decremented; tracker finalize then reports the
stale zero-size tag's address as a leak. -/
theorem c9_zero_size_tag (cfgMax : Nat) (s : TrackerState) (addr t : Nat)
    (hpos : 0 < cfgMax) (haddr : addr ≠ 0)
    (hinit : s.initialized = true) (halloc : s.tagsAllocated = true)
    (hlen : s.tags.length = cfgMax)
    (hclaim : trackClaim cfgMax s addr 0 = some t) :
    _memory_tracker_untrack cfgMax (_memory_tracker_track cfgMax s addr 0) addr
        = _memory_tracker_track cfgMax s addr 0 ∧
    addr ∈ (_memory_tracker_finalize cfgMax
        (_memory_tracker_track cfgMax s addr 0)).2 := by
  have heq : trackLoop cfgMax addr 0 s.tags s.next (2 * cfgMax) =
      ((trackLoop cfgMax addr 0 s.tags s.next (2 * cfgMax)).1,
       (trackLoop cfgMax addr 0 s.tags s.next (2 * cfgMax)).2.1, some t) := by
    rw [← hclaim]
    rfl
  obtain ⟨ht, hnext, htags⟩ := trackLoop_claim cfgMax addr 0 hpos (2 * cfgMax)
    s.tags _ s.next _ t hlen heq
  have hs' : _memory_tracker_track cfgMax s addr 0 =
      { s with tags := (trackLoop cfgMax addr 0 s.tags s.next (2 * cfgMax)).1,
               next := (trackLoop cfgMax addr 0 s.tags s.next (2 * cfgMax)).2.1,
               stats := statsBump s.stats 0 } := by
    unfold _memory_tracker_track
    rw [if_pos ⟨haddr, hinit⟩]
  have hgd : ((_memory_tracker_track cfgMax s addr 0).tags.getD t ⟨0, 0⟩)
      = ⟨addr, 0⟩ := by
    rw [hs']
    simp only [htags]
    rw [List.getD_eq_getElem?_getD, List.getElem?_set_self (by omega)]
    rfl
  have hnext' : (_memory_tracker_track cfgMax s addr 0).next = t + 1 := by
    rw [hs']
    exact hnext
  -- the first slot probed by untrack is exactly the claimed slot t
  have hitag : (if (_memory_tracker_track cfgMax s addr 0).next % cfgMax = 0 then
      cfgMax - 1 else (_memory_tracker_track cfgMax s addr 0).next % cfgMax - 1)
      = t := by
    rw [hnext']
    rcases Nat.lt_or_ge (t + 1) cfgMax with hl | hg
    · rw [Nat.mod_eq_of_lt hl]
      simp
    · have : t + 1 = cfgMax := by omega
      rw [this, Nat.mod_self]
      simp
      omega
  have hfound : untrackFound cfgMax (_memory_tracker_track cfgMax s addr 0) addr
      = some (t, 0) := by
    unfold untrackFound
    rw [if_pos ⟨haddr, by rw [hs']; exact hinit⟩, hitag]
    show untrackSearch cfgMax _ _ addr t (cfgMax + 1) = some (t, 0)
    unfold untrackSearch
    rw [if_pos (by rw [hgd])]
    rw [hgd]
  constructor
  · unfold _memory_tracker_untrack
    rw [hfound]
    simp
  · unfold _memory_tracker_finalize
    rw [if_pos (by rw [hs']; exact halloc)]
    dsimp only
    refine List.mem_filterMap.mpr ⟨t, List.mem_range.mpr ht, ?_⟩
    rw [hgd]
    simp [haddr]

/-- Claim C9 witness: capacity 2, empty tag table, cursor 0; tracking address
5 with size 0 claims slot 0, after which untracking address 5 changes nothing
and finalize reports address 5 as a leak. -/
theorem c9_zero_size_tag_witness :
    _memory_tracker_untrack 2
        (_memory_tracker_track 2 ⟨[⟨0, 0⟩, ⟨0, 0⟩], 0, true, true, ⟨0, 0, 0, 0⟩⟩
          5 0) 5
      = _memory_tracker_track 2 ⟨[⟨0, 0⟩, ⟨0, 0⟩], 0, true, true, ⟨0, 0, 0, 0⟩⟩
          5 0 ∧
    5 ∈ (_memory_tracker_finalize 2
        (_memory_tracker_track 2 ⟨[⟨0, 0⟩, ⟨0, 0⟩], 0, true, true, ⟨0, 0, 0, 0⟩⟩
          5 0)).2 :=
  c9_zero_size_tag 2 ⟨[⟨0, 0⟩, ⟨0, 0⟩], 0, true, true, ⟨0, 0, 0, 0⟩⟩ 5 0
    (by decide) (by decide) (by decide) (by decide) (by decide) (by decide)

/-- Observable actions of the back-end deallocator. -/
inductive FreeEvent where
  | headerRead (a : Nat)
  | freeCall (p : Nat)
  | unmapCall (p : Nat)
deriving DecidableEq

/-- `_memory_deallocate_malloc` (memory.c lines 573-622), 64-bit build without
the memory guard, as the list of actions it performs: a null payload returns
immediately with no action; otherwise the raw-pointer header word at
`p - 8` is read and, depending on its low bit, the block is released via
page unmap (bit cleared) or `free`. -/
def _memory_deallocate_malloc (m : Mem) (p : Nat) : List FreeEvent :=
  if p = 0 then []
  else
    FreeEvent.headerRead (p - 8) ::
      (if load64 m (p - 8) % 2 = 1 then [FreeEvent.unmapCall (load64 m (p - 8) - 1)]
       else [FreeEvent.freeCall (load64 m (p - 8))])

/-- `memory_deallocate` (memory.c lines 275-280): call the back end when the
payload is outside the arena storage range, then unconditionally untrack.
Returns the back-end actions and the new tracker/statistics state. -/
def memory_deallocate (c : ArenaCfg) (m : Mem) (cfgMax : Nat) (ts : TrackerState)
    (p : Nat) : List FreeEvent × TrackerState :=
  ((if p < c.storage ∨ c.storage + c.size ≤ p then _memory_deallocate_malloc m p
    else []),
   _memory_tracker_untrack cfgMax ts p)

/-- Claim C10: `memory_deallocate(NULL)` is a safe no-op: the back end's
deallocator performs no action on a null payload (in particular it reads no
header word), the tracker's untrack ignores the null address, and the
tracker state — including all four statistics counters — is unchanged. -/
theorem c10_deallocate_null (c : ArenaCfg) (m : Mem) (cfgMax : Nat)
    (ts : TrackerState) :
    memory_deallocate c m cfgMax ts 0 = ([], ts) ∧
    _memory_deallocate_malloc m 0 = [] := by
  have hml : _memory_deallocate_malloc m 0 = [] := by
    unfold _memory_deallocate_malloc
    rw [if_pos rfl]
  have hun : _memory_tracker_untrack cfgMax ts 0 = ts := by
    unfold _memory_tracker_untrack untrackFound
    rw [if_neg (by simp)]
  refine ⟨?_, hml⟩
  unfold memory_deallocate
  rw [hun, hml]
  split_ifs <;> rfl

/-- `memory_tracker_t`: the five function slots, each modelled as an optional
function identifier (`none` = null pointer). -/
structure TrackerTable where
  trackFn : Option Nat
  untrackFn : Option Nat
  initializeFn : Option Nat
  finalizeFn : Option Nat
  abortFn : Option Nat
deriving DecidableEq

/-- `_memory_no_tracker` (memory.c line 37): the zero-initialised table. -/
def _memory_no_tracker : TrackerTable := ⟨none, none, none, none, none⟩

/-- Observable actions of `memory_set_tracker` and `_memory_init`, in
program order: installing a table into `_memory_tracker`, latching one into
`_memory_tracker_preinit`, and calling a table's abort / finalize /
initialize slot. -/
inductive TrackerEvent where
  | install (t : TrackerTable)
  | latch (t : TrackerTable)
  | abortCall (f : Nat)
  | finalizeCall (f : Nat)
  | initializeCall (f : Nat)
deriving DecidableEq

/-- The tracker-lifecycle portion of the process state: the installed table,
the pre-init latch, and the subsystem-initialized flag. -/
structure MemSysState where
  tracker : TrackerTable
  preinit : TrackerTable
  initialized : Bool
deriving DecidableEq

/-- Call an optional function slot: one event if the slot is non-null. -/
def optCall (f : Option Nat) (mk : Nat → TrackerEvent) : List TrackerEvent :=
  match f with
  | some g => [mk g]
  | none => []

/-- `memory_set_tracker` (memory.c lines 761-785).  The no-op test at line
765 compares only the `track` and `untrack` slots of the old and new tables.
Otherwise: install the no-op tracker, call the old tracker's abort, then its
finalize; if the subsystem is initialized call the new tracker's initialize
and install it, else latch it into the pre-init slot. -/
def memory_set_tracker (s : MemSysState) (t : TrackerTable) :
    MemSysState × List TrackerEvent :=
  if s.tracker.trackFn = t.trackFn ∧ s.tracker.untrackFn = t.untrackFn then
    (s, [])
  else
    ((if s.initialized = true then { s with tracker := t }
      else { s with tracker := _memory_no_tracker, preinit := t }),
     TrackerEvent.install _memory_no_tracker ::
       (optCall s.tracker.abortFn TrackerEvent.abortCall ++
        optCall s.tracker.finalizeFn TrackerEvent.finalizeCall ++
        (if s.initialized = true then
           optCall t.initializeFn TrackerEvent.initializeCall ++
             [TrackerEvent.install t]
         else [TrackerEvent.latch t])))

/-- `_memory_initialize` in the C source (memory.c lines 181-196), here `_memory_init`, restricted to the
tracker-lifecycle part: set the initialized flag, then install the pre-init
tracker via `memory_set_tracker` when its initialize slot is non-null. -/
def _memory_init (s : MemSysState) : MemSysState × List TrackerEvent :=
  if s.preinit.initializeFn ≠ none then
    memory_set_tracker { s with initialized := true } s.preinit
  else ({ s with initialized := true }, [])

/-- Claim C4 counterexample: the claim reads the no-op test as full identity
of tracker tables, but the code compares only the `track` and `untrack`
slots.  With an installed tracker `⟨1, 2, 3, 4, 5⟩` and a new tracker
`⟨1, 2, 30, 40, 50⟩` — different tables sharing `track`/`untrack` — the call
is a complete no-op: no events at all, although the old tracker's abort and
finalize slots are non-null and the claim's `otherwise` branch requires them
to be called and the new tracker to be installed or latched. -/
theorem c4_set_tracker_cex :
    (⟨some 1, some 2, some 30, some 40, some 50⟩ : TrackerTable)
        ≠ (⟨some 1, some 2, some 3, some 4, some 5⟩ : TrackerTable) ∧
    (⟨some 1, some 2, some 3, some 4, some 5⟩ : TrackerTable).abortFn ≠ none ∧
    memory_set_tracker
        ⟨⟨some 1, some 2, some 3, some 4, some 5⟩, _memory_no_tracker, true⟩
        ⟨some 1, some 2, some 30, some 40, some 50⟩
      = (⟨⟨some 1, some 2, some 3, some 4, some 5⟩, _memory_no_tracker, true⟩,
         []) := by
  refine ⟨by decide, by decide, by decide⟩

/-- Claim C4 (amended): `memory_set_tracker` is a no-op exactly when the new
table's `track` and `untrack` slots both equal the installed table's (full
identity is not required).  Otherwise the no-op tracker is installed first,
the old tracker's abort is called, then its finalize; if the subsystem is
initialized the new tracker's initialize is called and the new tracker
installed; if not, the new tracker is latched into the pre-init slot (with
the no-op tracker left installed) and a later `_memory_init` installs
it. -/
theorem c4_set_tracker (s0 s1 s2 : MemSysState) (t0 t1 t2 : TrackerTable)
    (fa ff fi : Nat)
    (h0 : s0.tracker.trackFn = t0.trackFn ∧ s0.tracker.untrackFn = t0.untrackFn)
    (h1ne : ¬(s1.tracker.trackFn = t1.trackFn ∧
      s1.tracker.untrackFn = t1.untrackFn))
    (h1i : s1.initialized = true)
    (h1a : s1.tracker.abortFn = some fa) (h1f : s1.tracker.finalizeFn = some ff)
    (h1t : t1.initializeFn = some fi)
    (h2ne : ¬(s2.tracker.trackFn = t2.trackFn ∧
      s2.tracker.untrackFn = t2.untrackFn))
    (h2i : s2.initialized = false)
    (h2t : t2.initializeFn ≠ none)
    (h2tu : ¬(t2.trackFn = none ∧ t2.untrackFn = none)) :
    memory_set_tracker s0 t0 = (s0, []) ∧
    (memory_set_tracker s1 t1).2 =
      [TrackerEvent.install _memory_no_tracker, TrackerEvent.abortCall fa,
       TrackerEvent.finalizeCall ff, TrackerEvent.initializeCall fi,
       TrackerEvent.install t1] ∧
    (memory_set_tracker s1 t1).1.tracker = t1 ∧
    (memory_set_tracker s1 t1).1.preinit = s1.preinit ∧
    (memory_set_tracker s2 t2).1.tracker = _memory_no_tracker ∧
    (memory_set_tracker s2 t2).1.preinit = t2 ∧
    (memory_set_tracker s2 t2).2 =
      TrackerEvent.install _memory_no_tracker ::
        (optCall s2.tracker.abortFn TrackerEvent.abortCall ++
         optCall s2.tracker.finalizeFn TrackerEvent.finalizeCall ++
         [TrackerEvent.latch t2]) ∧
    (_memory_init (memory_set_tracker s2 t2).1).1.tracker = t2 := by
  have hset1 : memory_set_tracker s1 t1 =
      ({ s1 with tracker := t1 },
       TrackerEvent.install _memory_no_tracker ::
         (optCall s1.tracker.abortFn TrackerEvent.abortCall ++
          optCall s1.tracker.finalizeFn TrackerEvent.finalizeCall ++
          (optCall t1.initializeFn TrackerEvent.initializeCall ++
            [TrackerEvent.install t1]))) := by
    unfold memory_set_tracker
    rw [if_neg h1ne, if_pos h1i, if_pos h1i]
  have hset2 : memory_set_tracker s2 t2 =
      ({ s2 with tracker := _memory_no_tracker, preinit := t2 },
       TrackerEvent.install _memory_no_tracker ::
         (optCall s2.tracker.abortFn TrackerEvent.abortCall ++
          optCall s2.tracker.finalizeFn TrackerEvent.finalizeCall ++
          [TrackerEvent.latch t2])) := by
    unfold memory_set_tracker
    rw [if_neg h2ne, if_neg (by rw [h2i]; simp), if_neg (by rw [h2i]; simp)]
  refine ⟨?_, ?_, ?_, ?_, ?_, ?_, ?_, ?_⟩
  · unfold memory_set_tracker
    rw [if_pos h0]
  · rw [hset1, h1a, h1f, h1t]
    rfl
  · rw [hset1]
  · rw [hset1]
  · rw [hset2]
  · rw [hset2]
  · rw [hset2]
  · rw [hset2]
    unfold _memory_init
    rw [if_pos (by simpa using h2t)]
    unfold memory_set_tracker
    rw [if_neg (by simpa [_memory_no_tracker, eq_comm] using h2tu), if_pos rfl,
      if_pos rfl]

/-- Claim C4 witness: the amended statement at concrete tables — identical
`track`/`untrack` slots give a no-op; an initialized-state swap fires
install/abort/finalize/initialize/install in order; a pre-init swap latches
the new table and a later `_memory_init` installs it. -/
theorem c4_set_tracker_witness :
    memory_set_tracker
        ⟨⟨some 1, some 2, some 3, some 4, some 5⟩, _memory_no_tracker, true⟩
        ⟨some 1, some 2, some 30, some 40, some 50⟩
      = (⟨⟨some 1, some 2, some 3, some 4, some 5⟩, _memory_no_tracker, true⟩,
         []) ∧
    (memory_set_tracker
        ⟨⟨some 1, some 2, some 3, some 4, some 5⟩, _memory_no_tracker, true⟩
        ⟨some 10, some 11, some 12, some 13, some 14⟩).2 =
      [TrackerEvent.install _memory_no_tracker, TrackerEvent.abortCall 5,
       TrackerEvent.finalizeCall 4, TrackerEvent.initializeCall 12,
       TrackerEvent.install ⟨some 10, some 11, some 12, some 13, some 14⟩] ∧
    (memory_set_tracker
        ⟨⟨some 1, some 2, some 3, some 4, some 5⟩, _memory_no_tracker, true⟩
        ⟨some 10, some 11, some 12, some 13, some 14⟩).1.tracker
      = ⟨some 10, some 11, some 12, some 13, some 14⟩ ∧
    (memory_set_tracker
        ⟨⟨some 1, some 2, some 3, some 4, some 5⟩, _memory_no_tracker, true⟩
        ⟨some 10, some 11, some 12, some 13, some 14⟩).1.preinit
      = (⟨⟨some 1, some 2, some 3, some 4, some 5⟩, _memory_no_tracker,
          true⟩ : MemSysState).preinit ∧
    (memory_set_tracker
        ⟨⟨some 1, some 2, some 3, some 4, some 5⟩, _memory_no_tracker, false⟩
        ⟨some 20, some 21, some 22, some 23, some 24⟩).1.tracker
      = _memory_no_tracker ∧
    (memory_set_tracker
        ⟨⟨some 1, some 2, some 3, some 4, some 5⟩, _memory_no_tracker, false⟩
        ⟨some 20, some 21, some 22, some 23, some 24⟩).1.preinit
      = ⟨some 20, some 21, some 22, some 23, some 24⟩ ∧
    (memory_set_tracker
        ⟨⟨some 1, some 2, some 3, some 4, some 5⟩, _memory_no_tracker, false⟩
        ⟨some 20, some 21, some 22, some 23, some 24⟩).2 =
      TrackerEvent.install _memory_no_tracker ::
        (optCall (⟨⟨some 1, some 2, some 3, some 4, some 5⟩, _memory_no_tracker,
            false⟩ : MemSysState).tracker.abortFn TrackerEvent.abortCall ++
         optCall (⟨⟨some 1, some 2, some 3, some 4, some 5⟩, _memory_no_tracker,
            false⟩ : MemSysState).tracker.finalizeFn TrackerEvent.finalizeCall ++
         [TrackerEvent.latch ⟨some 20, some 21, some 22, some 23, some 24⟩]) ∧
    (_memory_init (memory_set_tracker
        ⟨⟨some 1, some 2, some 3, some 4, some 5⟩, _memory_no_tracker, false⟩
        ⟨some 20, some 21, some 22, some 23, some 24⟩).1).1.tracker
      = ⟨some 20, some 21, some 22, some 23, some 24⟩ :=
  c4_set_tracker
    ⟨⟨some 1, some 2, some 3, some 4, some 5⟩, _memory_no_tracker, true⟩
    ⟨⟨some 1, some 2, some 3, some 4, some 5⟩, _memory_no_tracker, true⟩
    ⟨⟨some 1, some 2, some 3, some 4, some 5⟩, _memory_no_tracker, false⟩
    ⟨some 1, some 2, some 30, some 40, some 50⟩
    ⟨some 10, some 11, some 12, some 13, some 14⟩
    ⟨some 20, some 21, some 22, some 23, some 24⟩
    5 4 12
    (by decide) (by decide) (by decide) (by decide) (by decide) (by decide)
    (by decide) (by decide) (by decide) (by decide)

/-- `memory_context_t`: the per-thread context stack, a depth plus the
identifier array of length `memory_context_depth`. -/
structure MemoryContext where
  depth : Nat
  buf : List Nat
deriving DecidableEq

/-- The lazily-allocated thread-local block: `none` models a null
`get_thread_memory_context()`; a fresh block is zero-initialised. -/
def ctxOrNew (dmax : Nat) : Option MemoryContext → MemoryContext
  | none => ⟨0, List.replicate dmax 0⟩
  | some c => c

/-- `memory_context_push` (memory.c lines 293-305): allocate the block if
null, write `context[depth] = id`, then increment `depth` only while
`depth < memory_context_depth - 1`.  Returns the new block and the array
index written (for the bounds claim). -/
def memory_context_push (dmax : Nat) (s : Option MemoryContext) (id : Nat) :
    Option MemoryContext × Nat :=
  (some ⟨(if (ctxOrNew dmax s).depth < dmax - 1 then (ctxOrNew dmax s).depth + 1
          else (ctxOrNew dmax s).depth),
         (ctxOrNew dmax s).buf.set (ctxOrNew dmax s).depth id⟩,
   (ctxOrNew dmax s).depth)

/-- `memory_context_pop` (memory.c lines 307-312): decrement `depth` when the
block exists and `depth > 0`. -/
def memory_context_pop : Option MemoryContext → Option MemoryContext
  | none => none
  | some c => some (if 0 < c.depth then ⟨c.depth - 1, c.buf⟩ else c)

/-- `memory_context` (memory.c lines 314-318): the top identifier, or 0 when
the block is null or the stack is empty. -/
def memory_context_current : Option MemoryContext → Nat
  | none => 0
  | some c => if 0 < c.depth then c.buf.getD (c.depth - 1) 0 else 0

/-- A thread's sequence of context operations. -/
inductive CtxOp where
  | push (id : Nat)
  | pop
deriving DecidableEq

/-- Run a sequence of push/pop operations, collecting every array index
written by a push. -/
def runCtx (dmax : Nat) : Option MemoryContext → List CtxOp → Option MemoryContext × List Nat
  | s, [] => (s, [])
  | s, CtxOp.push id :: rest =>
    ((runCtx dmax (memory_context_push dmax s id).1 rest).1,
     (memory_context_push dmax s id).2 ::
       (runCtx dmax (memory_context_push dmax s id).1 rest).2)
  | s, CtxOp.pop :: rest => runCtx dmax (memory_context_pop s) rest

/-- Depth of the stack, 0 for the null block. -/
def ctxDepth : Option MemoryContext → Nat
  | none => 0
  | some c => c.depth

theorem runCtx_inv (dmax : Nat) (hd : 1 ≤ dmax) :
    ∀ (ops : List CtxOp) (s : Option MemoryContext),
      ctxDepth s ≤ dmax - 1 →
      (∀ c, s = some c → c.buf.length = dmax) →
      (ctxDepth (runCtx dmax s ops).1 ≤ dmax - 1 ∧
        ∀ c, (runCtx dmax s ops).1 = some c → c.buf.length = dmax) ∧
      ∀ w ∈ (runCtx dmax s ops).2, w < dmax := by
  intro ops
  induction ops with
  | nil =>
    intro s h1 h2
    exact ⟨⟨h1, h2⟩, by simp [runCtx]⟩
  | cons op rest ih =>
    intro s h1 h2
    cases op with
    | push id =>
      have hc : (ctxOrNew dmax s).depth ≤ dmax - 1 ∧
          (ctxOrNew dmax s).buf.length = dmax := by
        cases s with
        | none => simp [ctxOrNew]
        | some c =>
          exact ⟨by simpa [ctxOrNew, ctxDepth] using h1,
                 by simpa [ctxOrNew] using h2 c rfl⟩
      have hstep : ctxDepth (memory_context_push dmax s id).1 ≤ dmax - 1 := by
        simp only [memory_context_push, ctxDepth]
        split <;> omega
      have hlen : ∀ c, (memory_context_push dmax s id).1 = some c →
          c.buf.length = dmax := by
        intro c hcq
        simp only [memory_context_push, Option.some.injEq] at hcq
        rw [← hcq]
        simp [hc.2]
      have hrun := ih (memory_context_push dmax s id).1 hstep hlen
      refine ⟨by simpa only [runCtx] using hrun.1, ?_⟩
      intro w hw
      simp only [runCtx, List.mem_cons] at hw
      rcases hw with hw | hw
      · subst hw
        simp only [memory_context_push]
        omega
      · exact hrun.2 w hw
    | pop =>
      have hstep : ctxDepth (memory_context_pop s) ≤ dmax - 1 := by
        cases s with
        | none => simpa [memory_context_pop, ctxDepth] using h1
        | some c =>
          simp only [memory_context_pop, ctxDepth]
          simp only [ctxDepth] at h1
          split
          · dsimp only
            omega
          · omega
      have hlen : ∀ c, (memory_context_pop s) = some c → c.buf.length = dmax := by
        intro c hcq
        cases s with
        | none => simp [memory_context_pop] at hcq
        | some c0 =>
          simp only [memory_context_pop, Option.some.injEq] at hcq
          have := h2 c0 rfl
          rw [← hcq]
          split
          · simpa using this
          · exact this
      simpa only [runCtx] using ih (memory_context_pop s) hstep hlen

/-- Claim C5: the per-thread context stack saturates at
`memory_context_depth - 1` (a push at depth `dmax - 1` overwrites the top
slot without increasing depth and leaves `memory_context()` unchanged), every
array write stays within `context[0 .. dmax)`, a push below saturation makes
its identifier the current context, and `memory_context()` is 0 when the
block was never allocated or the stack is empty. -/
theorem c5_context_stack (dmax : Nat) (ops : List CtxOp) (w id d1 d2 : Nat)
    (b1 b2 : List Nat)
    (hd : 1 ≤ dmax)
    (hw : w ∈ (runCtx dmax none ops).2)
    (h1d : d1 < dmax - 1) (h1l : b1.length = dmax)
    (h2d : d2 = dmax - 1) (h2l : b2.length = dmax) :
    w < dmax ∧
    ctxDepth (runCtx dmax none ops).1 ≤ dmax - 1 ∧
    memory_context_current none = 0 ∧
    memory_context_current (some ⟨0, b1⟩) = 0 ∧
    memory_context_current (memory_context_push dmax (some ⟨d1, b1⟩) id).1 = id ∧
    memory_context_current (memory_context_push dmax (some ⟨d2, b2⟩) id).1
      = memory_context_current (some ⟨d2, b2⟩) := by
  have hrun := runCtx_inv dmax hd ops none (by simp [ctxDepth])
    (by intro c h; simp at h)
  have hsucc : memory_context_current
      (memory_context_push dmax (some ⟨d1, b1⟩) id).1 = id := by
    simp only [memory_context_push, ctxOrNew]
    rw [if_pos h1d]
    simp only [memory_context_current]
    rw [if_pos (by omega)]
    simp only [Nat.add_sub_cancel]
    rw [List.getD_eq_getElem?_getD, List.getElem?_set_self (by omega)]
    rfl
  have hsat : memory_context_current
      (memory_context_push dmax (some ⟨d2, b2⟩) id).1
      = memory_context_current (some ⟨d2, b2⟩) := by
    simp only [memory_context_push, ctxOrNew]
    rw [if_neg (by omega)]
    simp only [memory_context_current]
    by_cases h0 : 0 < d2
    · rw [if_pos h0, if_pos h0]
      rw [List.getD_eq_getElem?_getD, List.getD_eq_getElem?_getD,
        List.getElem?_set_ne (by omega)]
    · rw [if_neg h0, if_neg h0]
  exact ⟨hrun.2 w hw, hrun.1.1, rfl, by simp [memory_context_current], hsucc, hsat⟩

/-- Claim C5 witness: depth bound 2, operations push 5, push 6 (saturating),
pop; write indices stay below 2, and the push/saturation/current equations
hold at depth 0 and at the saturation depth 1 with buffer `[3, 4]`. -/
theorem c5_context_stack_witness :
    (0 : Nat) < 2 ∧
    ctxDepth (runCtx 2 none [CtxOp.push 5, CtxOp.push 6, CtxOp.pop]).1 ≤ 2 - 1 ∧
    memory_context_current none = 0 ∧
    memory_context_current (some ⟨0, [3, 4]⟩) = 0 ∧
    memory_context_current (memory_context_push 2 (some ⟨0, [3, 4]⟩) 7).1 = 7 ∧
    memory_context_current (memory_context_push 2 (some ⟨1, [3, 4]⟩) 7).1
      = memory_context_current (some ⟨1, [3, 4]⟩) :=
  c5_context_stack 2 [CtxOp.push 5, CtxOp.push 6, CtxOp.pop] 0 7 0 1 [3, 4] [3, 4]
    (by decide) (by decide) (by decide) (by decide) (by decide) (by decide)
